import Mathlib

/-!
Verification of the dmca-monitor repository: a shallow embedding of its
alert-state store (`state.py`), takedown rechecker (`checker.py`), review
webapp actions (`webapp/app.py`), fingerprint matcher and notification
dispatcher (`utils.py`, `scan_and_alert.py`), together with theorems about
the behaviours the specification describes.

Python dicts used as string-keyed records are embedded as association
lists (they preserve insertion order and replace in place, like `dict`),
and dict fields that may be absent or `None` are embedded as `Option`
fields, with `none` standing for an absent key or a `None` value.
-/

namespace DmcaMonitor

/-- Lookup in an association list, mirroring Python `d.get(k)`. -/
def lookupA {β : Type} (k : String) : List (String × β) → Option β
  | [] => none
  | (k2, v) :: rest => if k2 = k then some v else lookupA k rest

/-- In-place insert/replace in an association list, mirroring Python
`d[k] = v` (replaces the existing binding in place, otherwise appends). -/
def insertA {β : Type} (k : String) (v : β) : List (String × β) → List (String × β)
  | [] => [(k, v)]
  | (k2, v2) :: rest => if k2 = k then (k, v) :: rest else (k2, v2) :: insertA k v rest

/-- Python truthiness of an optional string: `None` and `""` are falsy. -/
def truthy : Option String → Bool
  | none => false
  | some s => s ≠ ""

/-- Python `a or b` for an optional string `a` and a default `b`. -/
def orDefault (o : Option String) (d : String) : String :=
  match o with
  | none => d
  | some s => if s = "" then d else s

/-- One entry of a match record's `notes` list: `{"ts": ..., "text": ...}`. -/
structure Note where
  ts : String
  text : String
deriving DecidableEq, Repr

/-- A `MatchRecord` as stored in the alert state document.  Every field is
optional because the records are plain dicts: the rechecker's merge loop can
even materialise an empty record via `setdefault(url, \x7b\x7d)`. -/
structure MatchRecord where
  status : Option String := none
  muted : Option Bool := none
  notes : Option (List Note) := none
  first_seen_utc : Option String := none
  last_seen_utc : Option String := none
  seen_count : Option Int := none
  host_page : Option String := none
  term : Option String := none
  matched_known_file : Option String := none
  saved_copy : Option String := none
  http_status : Option Int := none
  fail_reason : Option String := none
  last_checked_utc : Option String := none
  removed_at_utc : Option String := none
deriving DecidableEq, Repr

/-- `SiteState`: `{"matches": {imageURL: MatchRecord}}`.  (`matches` is a
reserved word in Lean, hence the underscore.) -/
structure SiteState where
  matches_ : List (String × MatchRecord) := []
deriving DecidableEq, Repr

/-- The root alert state document `{"sites": {siteKey: SiteState}}`. -/
structure AlertState where
  sites : List (String × SiteState) := []
deriving DecidableEq, Repr

/-- The rediscovery payload passed to `upsert_match`; each key is present in
the Python dict but its value may be `None` (from a missing CSV column). -/
structure Payload where
  timestamp_utc : Option String := none
  host_page : Option String := none
  term : Option String := none
  matched_known_file : Option String := none
  saved_copy : Option String := none
deriving DecidableEq, Repr

/-- The fresh record created by `upsert_match` when no record exists:
`{"status": "new", "muted": False, "notes": [], ...}` with provenance
copied from the payload. -/
def freshRecord (now : String) (payload : Payload) : MatchRecord :=
  { status := some "new"
    muted := some false
    notes := some []
    first_seen_utc := some now
    last_seen_utc := some now
    seen_count := some 1
    host_page := payload.host_page
    term := payload.term
    matched_known_file := payload.matched_known_file
    saved_copy := payload.saved_copy }

/-- The merge of a rediscovery payload into an existing record (the `if m:`
branch of `upsert_match`): refresh `last_seen_utc`, increment `seen_count`
(`int(m.get("seen_count", 1)) + 1`), and overwrite each provenance field only
when the payload value is truthy. -/
def mergeRecord (m : MatchRecord) (now : String) (payload : Payload) : MatchRecord :=
  let m1 := { m with
    last_seen_utc := some now
    seen_count := some (m.seen_count.getD 1 + 1) }
  let m2 := if truthy payload.host_page then { m1 with host_page := payload.host_page } else m1
  let m3 := if truthy payload.term then { m2 with term := payload.term } else m2
  let m4 := if truthy payload.matched_known_file then
              { m3 with matched_known_file := payload.matched_known_file } else m3
  if truthy payload.saved_copy then { m4 with saved_copy := payload.saved_copy } else m4

/-- `upsert_match(state, base, image_url, payload)` from `state.py`.  `wall`
stands for `time.strftime(...)`, the wall clock consulted when the payload
carries no truthy timestamp.  Returns the updated state together with the
record stored at `(base, image_url)`. -/
def upsert_match (state : AlertState) (base : String) (image_url : String)
    (payload : Payload) (wall : String) : AlertState × MatchRecord :=
  let now := orDefault payload.timestamp_utc wall
  let site := (lookupA base state.sites).getD {}
  let rec' : MatchRecord :=
    match lookupA image_url site.matches_ with
    | some m => mergeRecord m now payload
    | none => freshRecord now payload
  (⟨insertA base ⟨insertA image_url rec' site.matches_⟩ state.sites⟩, rec')

/-- Lookup of the record stored at `(siteKey, imageURL)`. -/
def lookup2 (s : AlertState) (sk url : String) : Option MatchRecord :=
  match lookupA sk s.sites with
  | some site => lookupA url site.matches_
  | none => none

theorem lookupA_insertA {β : Type} (k k' : String) (v : β) (l : List (String × β)) :
    lookupA k (insertA k' v l) = if k' = k then some v else lookupA k l := by
  induction l with
  | nil => simp [insertA, lookupA]
  | cons hd tl ih =>
    obtain ⟨k2, v2⟩ := hd
    by_cases h2 : k2 = k' <;> by_cases h3 : k' = k <;> by_cases h4 : k2 = k <;>
      simp_all [insertA, lookupA]

theorem mergeRecord_fields (m : MatchRecord) (now : String) (payload : Payload) :
    (mergeRecord m now payload).first_seen_utc = m.first_seen_utc ∧
    (mergeRecord m now payload).seen_count = some (m.seen_count.getD 1 + 1) ∧
    (mergeRecord m now payload).last_seen_utc = some now ∧
    (mergeRecord m now payload).host_page
      = (if truthy payload.host_page then payload.host_page else m.host_page) ∧
    (mergeRecord m now payload).term
      = (if truthy payload.term then payload.term else m.term) ∧
    (mergeRecord m now payload).matched_known_file
      = (if truthy payload.matched_known_file then payload.matched_known_file
         else m.matched_known_file) ∧
    (mergeRecord m now payload).saved_copy
      = (if truthy payload.saved_copy then payload.saved_copy else m.saved_copy) := by
  simp only [mergeRecord]
  split_ifs <;> simp_all

/-- C2: upserting onto an existing record at `(base, url)` refreshes
`last_seen_utc` to the payload timestamp, increments `seen_count` by exactly
one, leaves `first_seen_utc` unchanged, and overwrites each provenance field
only when the payload supplies a truthy (non-`None`, non-empty) value for it;
consequently a truthy stored provenance value is never replaced by an empty
one. -/
theorem upsert_existing_merges (s : AlertState) (base url wall t : String)
    (payload : Payload) (m : MatchRecord) (n : Int)
    (hm : lookup2 s base url = some m)
    (hn : m.seen_count = some n)
    (ht : payload.timestamp_utc = some t) (ht2 : t ≠ "") :
    (upsert_match s base url payload wall).2.first_seen_utc = m.first_seen_utc ∧
    (upsert_match s base url payload wall).2.seen_count = some (n + 1) ∧
    (upsert_match s base url payload wall).2.last_seen_utc = some t ∧
    (upsert_match s base url payload wall).2.host_page
      = (if truthy payload.host_page then payload.host_page else m.host_page) ∧
    (upsert_match s base url payload wall).2.term
      = (if truthy payload.term then payload.term else m.term) ∧
    (upsert_match s base url payload wall).2.matched_known_file
      = (if truthy payload.matched_known_file then payload.matched_known_file
         else m.matched_known_file) ∧
    (upsert_match s base url payload wall).2.saved_copy
      = (if truthy payload.saved_copy then payload.saved_copy else m.saved_copy) ∧
    (truthy m.host_page = true → truthy (upsert_match s base url payload wall).2.host_page = true) ∧
    (truthy m.term = true → truthy (upsert_match s base url payload wall).2.term = true) ∧
    (truthy m.matched_known_file = true
      → truthy (upsert_match s base url payload wall).2.matched_known_file = true) ∧
    (truthy m.saved_copy = true → truthy (upsert_match s base url payload wall).2.saved_copy = true) := by
  unfold lookup2 at hm
  have hrec : (upsert_match s base url payload wall).2 = mergeRecord m t payload := by
    unfold upsert_match
    cases hs : lookupA base s.sites with
    | none => rw [hs] at hm; cases hm
    | some site =>
      simp only [hs] at hm
      simp only [hs, Option.getD_some, hm, orDefault, ht, if_neg ht2]
  rw [hrec]
  obtain ⟨h1, h2, h3, h4, h5, h6, h7⟩ := mergeRecord_fields m t payload
  refine ⟨h1, by rw [h2, hn]; rfl, h3, h4, h5, h6, h7, ?_, ?_, ?_, ?_⟩ <;>
    intro htr
  · rw [h4]; split_ifs with hc <;> simp_all [truthy]
  · rw [h5]; split_ifs with hc <;> simp_all [truthy]
  · rw [h6]; split_ifs with hc <;> simp_all [truthy]
  · rw [h7]; split_ifs with hc <;> simp_all [truthy]

/-- Witness for `upsert_existing_merges` at a concrete state: a record with
`seen_count = 3` and known provenance, rediscovered by a payload that carries
a timestamp and a new host page but an empty `term`. -/
theorem upsert_existing_merges_witness :
    (upsert_match
        ⟨[("ex.com", ⟨[("http://ex.com/i.jpg",
            { status := some "ack", muted := some false, notes := some []
              first_seen_utc := some "T0", last_seen_utc := some "T1"
              seen_count := some 3, host_page := some "http://ex.com/p"
              term := some "old term" })]⟩)]⟩
        "ex.com" "http://ex.com/i.jpg"
        { timestamp_utc := some "T2", host_page := some "http://ex.com/q"
          term := some "" } "WALL").2.first_seen_utc = some "T0" ∧
    (upsert_match
        ⟨[("ex.com", ⟨[("http://ex.com/i.jpg",
            { status := some "ack", muted := some false, notes := some []
              first_seen_utc := some "T0", last_seen_utc := some "T1"
              seen_count := some 3, host_page := some "http://ex.com/p"
              term := some "old term" })]⟩)]⟩
        "ex.com" "http://ex.com/i.jpg"
        { timestamp_utc := some "T2", host_page := some "http://ex.com/q"
          term := some "" } "WALL").2.seen_count = some 4 := by
  have h := upsert_existing_merges
    ⟨[("ex.com", ⟨[("http://ex.com/i.jpg",
        { status := some "ack", muted := some false, notes := some []
          first_seen_utc := some "T0", last_seen_utc := some "T1"
          seen_count := some 3, host_page := some "http://ex.com/p"
          term := some "old term" })]⟩)]⟩
    "ex.com" "http://ex.com/i.jpg" "WALL" "T2"
    { timestamp_utc := some "T2", host_page := some "http://ex.com/q"
      term := some "" }
    { status := some "ack", muted := some false, notes := some []
      first_seen_utc := some "T0", last_seen_utc := some "T1"
      seen_count := some 3, host_page := some "http://ex.com/p"
      term := some "old term" }
    3 (by decide) rfl rfl (by decide)
  exact ⟨h.1, h.2.1⟩

/-! ### Takedown rechecker (`checker.py`) -/

/-- Python `\s` whitespace class (ASCII). -/
def isWs (c : Char) : Bool :=
  c = ' ' || c = '\t' || c = '\n' || c = '\r' || c = '\x0b' || c = '\x0c'

/-- ASCII lower-casing of a string's characters, the effect of
`re.IGNORECASE` on these patterns. -/
def lowerChars (s : String) : List Char := s.toList.map Char.toLower

/-- A token of one alternative of the `TAKEDOWN_HINTS` regular expression:
either a literal or `\s+`. -/
inductive HintTok where
  | lit (s : String)
  | ws
deriving DecidableEq, Repr

/-- The alternatives of `TAKEDOWN_HINTS`, tokenised: `removed\s+due\s+to\s+
copyright | dmca | not\s+available | content\s+unavailable | has\s+been\s+
deleted | page\s+not\s+found | violat(e|ion) | terms\s+of\s+service`. -/
def hintPatterns : List (List HintTok) :=
  [ [.lit "removed", .ws, .lit "due", .ws, .lit "to", .ws, .lit "copyright"],
    [.lit "dmca"],
    [.lit "not", .ws, .lit "available"],
    [.lit "content", .ws, .lit "unavailable"],
    [.lit "has", .ws, .lit "been", .ws, .lit "deleted"],
    [.lit "page", .ws, .lit "not", .ws, .lit "found"],
    [.lit "violate"],
    [.lit "violation"],
    [.lit "terms", .ws, .lit "of", .ws, .lit "service"] ]

/-- `litStarts p cs`: the characters `p` begin the list `cs`. -/
def litStarts : List Char → List Char → Bool
  | [], _ => true
  | _ :: _, [] => false
  | p :: ps, c :: cs => p = c && litStarts ps cs

/-- Match a token list at the head of `cs`.  `\s+` is greedy; since every
following literal starts with a letter, greedy matching is equivalent to the
regex's backtracking semantics here. -/
def matchToks : List HintTok → List Char → Bool
  | [], _ => true
  | .lit s :: ts, cs =>
      litStarts s.toList cs && matchToks ts (cs.drop s.length)
  | .ws :: ts, cs =>
      match cs with
      | [] => false
      | c :: rest => isWs c && matchToks ts (rest.dropWhile isWs)

/-- Search: does any alternative match at any position of `cs`? -/
def searchAny : List Char → Bool
  | [] => false
  | c :: rest => hintPatterns.any (fun p => matchToks p (c :: rest)) || searchAny rest

/-- `TAKEDOWN_HINTS.search(text)` as a Boolean: case-insensitive search for
any takedown-language alternative. -/
def TAKEDOWN_HINTS_search (text : String) : Bool :=
  searchAny (lowerChars text)

/-- Python `text and TAKEDOWN_HINTS.search(text)` as a Boolean: the body is
truthy and the takedown-language search succeeds on it. -/
def textMatchesHints : Option String → Bool
  | none => false
  | some t => (t != "") && TAKEDOWN_HINTS_search t

/-- `looks_gone(code, text)` from `checker.py`. -/
def looks_gone (code : Int) (text : Option String) : Bool :=
  if code = 404 ∨ code = 410 ∨ code = 451 then true
  else if code = 401 ∨ code = 403 then false
  else if 300 ≤ code ∧ code < 400 then false
  else if code = 200 ∧ textMatchesHints text = true then true
  else false

/-- The outcome of `fetch_status(url)`: either an HTTP status with the body
text when it was served as HTML (else `none`), or a transport failure with
its `fail_reason` string. -/
inductive FetchOutcome where
  | success (code : Int) (text : Option String)
  | failure (reason : String)
deriving DecidableEq, Repr

/-- The dict built by `check_one`. -/
structure CheckResult where
  http_status : Option Int
  fail_reason : Option String
  last_checked_utc : String
  last_seen_utc : Option String
  removed_at_utc : Option String
  status : String
deriving DecidableEq, Repr

/-- `check_one(image_url)` from `checker.py`, given the fetch outcome and the
current time `now`. -/
def check_one (outcome : FetchOutcome) (now : String) : CheckResult :=
  match outcome with
  | .failure reason =>
      { http_status := none, fail_reason := some reason, last_checked_utc := now
        last_seen_utc := none, removed_at_utc := none, status := "error" }
  | .success code text =>
      if looks_gone code text then
        { http_status := some code, fail_reason := none, last_checked_utc := now
          last_seen_utc := none, removed_at_utc := some now, status := "gone" }
      else
        { http_status := some code, fail_reason := none, last_checked_utc := now
          last_seen_utc := some now, removed_at_utc := none, status := "up" }

/-- The body of the "merge back into state" loop of `run_once`: how one
check result is merged into the record `meta`. -/
def merge_result (meta : MatchRecord) (res : CheckResult) : MatchRecord :=
  let meta1 := { meta with
    http_status := res.http_status
    fail_reason := res.fail_reason
    last_checked_utc := some res.last_checked_utc }
  if res.status = "up" then
    { meta1 with
      status := if meta.status = some "closed" ∨ meta.status = some "ack"
                then meta.status else some "up"
      last_seen_utc := res.last_seen_utc
      removed_at_utc := none }
  else if res.status = "gone" then
    { meta1 with
      status := if meta.status = some "closed" ∨ meta.status = some "ack"
                then meta.status else some "gone"
      removed_at_utc := res.removed_at_utc }
  else
    { meta1 with status := some "error" }

/-- The merge phase of `run_once`: fold every `(domain, url, result)` into
the state, materialising missing records as empty dicts via the
`setdefault` chain. -/
def run_once_merge (state : AlertState)
    (results : List (String × String × CheckResult)) : AlertState :=
  results.foldl
    (fun st r =>
      let site := (lookupA r.1 st.sites).getD {}
      let meta := (lookupA r.2.1 site.matches_).getD {}
      ⟨insertA r.1 ⟨insertA r.2.1 (merge_result meta r.2.2) site.matches_⟩ st.sites⟩)
    state

/-- C6: the rechecker's liveness classification.  HTTP 404/410/451 classify
as `gone`; 401/403 as `up`; any 3xx as `up`; a 200 whose truthy body matches
the takedown-language patterns as `gone`; any other 200 as `up`; a
network/transport failure as `error`.  Moreover `removed_at_utc` is
populated exactly in the `gone` case and `last_seen_utc` is refreshed
exactly in the `up` case. -/
theorem check_one_classification (now reason : String) (code : Int) (text : Option String) :
    ((code = 404 ∨ code = 410 ∨ code = 451)
      → (check_one (.success code text) now).status = "gone") ∧
    ((code = 401 ∨ code = 403) → (check_one (.success code text) now).status = "up") ∧
    (300 ≤ code → code < 400 → (check_one (.success code text) now).status = "up") ∧
    (code = 200 → textMatchesHints text = true
      → (check_one (.success code text) now).status = "gone") ∧
    (code = 200 → textMatchesHints text = false
      → (check_one (.success code text) now).status = "up") ∧
    ((check_one (.failure reason) now).status = "error") ∧
    (∀ o : FetchOutcome,
      ((check_one o now).removed_at_utc ≠ none ↔ (check_one o now).status = "gone") ∧
      ((check_one o now).last_seen_utc ≠ none ↔ (check_one o now).status = "up")) := by
  refine ⟨?_, ?_, ?_, ?_, ?_, rfl, ?_⟩
  · rintro (rfl | rfl | rfl) <;> simp [check_one, looks_gone]
  · rintro (rfl | rfl) <;> norm_num [check_one, looks_gone]
  · intro h1 h2
    have hg : looks_gone code text = false := by
      unfold looks_gone
      rw [if_neg (by omega), if_neg (by omega), if_pos ⟨h1, h2⟩]
    simp [check_one, hg]
  · rintro rfl hm
    norm_num [check_one, looks_gone, hm]
  · rintro rfl hm
    norm_num [check_one, looks_gone, hm]
  · intro o
    cases o with
    | failure r => simp [check_one]
    | success c t =>
      unfold check_one
      by_cases hg : looks_gone c t = true
      · simp [hg]
      · simp only [Bool.not_eq_true] at hg
        simp [hg]

/-- Witness for `check_one_classification`: HTTP 410 with no body is
classified `gone`, and a 200 whose body announces a copyright removal is
also classified `gone`. -/
theorem check_one_classification_witness :
    (check_one (.success 410 none) "T").status = "gone" ∧
    (check_one (.success 200 (some "Removed due to copyright")) "T").status = "gone" := by
  have h1 := check_one_classification "T" "boom" 410 none
  have h2 := check_one_classification "T" "boom" 200 (some "Removed due to copyright")
  exact ⟨h1.1 (Or.inr (Or.inl rfl)), h2.2.2.2.1 rfl (by decide)⟩

/-- C1 counterexample: a record whose reviewer set `status = "closed"`,
merged with an `error`-classified recheck result (a transport failure), does
not keep its manual disposition: the merge sets `status` to `"error"`. -/
theorem merge_error_overwrites_closed :
    (merge_result { status := some "closed" }
        (check_one (.failure "http_error:Timeout") "T")).status = some "error" ∧
    (some "error" : Option String) ≠ some "closed" := by
  exact ⟨rfl, by decide⟩

/-- C1 (amended): merging an `up`- or `gone`-classified recheck result into
a record whose status is `"closed"` or `"ack"` leaves the status unchanged;
an `error`-classified result sets the status to `"error"` unconditionally,
even over a manual disposition. -/
theorem merge_preserves_disposition_up_gone (m : MatchRecord) (res : CheckResult)
    (hstat : m.status = some "closed" ∨ m.status = some "ack") :
    ((res.status = "up" ∨ res.status = "gone") → (merge_result m res).status = m.status) ∧
    (res.status = "error" → (merge_result m res).status = some "error") := by
  unfold merge_result
  constructor
  · rintro (h | h) <;> simp [h, if_pos hstat]
  · intro h
    simp [h]

/-- Witness for `merge_preserves_disposition_up_gone`: an acknowledged
record keeps `status = "ack"` when a 410 recheck (classified `gone`) is
merged into it. -/
theorem merge_preserves_disposition_witness :
    (merge_result { status := some "ack" } (check_one (.success 410 none) "T")).status
      = some "ack" := by
  have h := merge_preserves_disposition_up_gone { status := some "ack" }
    (check_one (.success 410 none) "T") (Or.inr rfl)
  exact h.1 (Or.inr (by decide))

/-! ### Review webapp (`webapp/app.py`) -/

/-- Python `str.lower()` restricted to the character-wise lowering used for
the domain keys. -/
def lowerStr (s : String) : String := ⟨lowerChars s⟩

/-- Python `str.strip()`: drop leading and trailing whitespace. -/
def pyStrip (s : String) : String :=
  ⟨((s.toList.dropWhile isWs).reverse.dropWhile isWs).reverse⟩

/-- A row of the audit log `logs/matches.csv` as read by `csv.DictReader`:
each field may be missing. -/
structure LogRow where
  timestamp_utc : Option String := none
  term : Option String := none
  image_url : Option String := none
  host_page : Option String := none
  matched_known_file : Option String := none
  saved_copy : Option String := none
deriving DecidableEq, Repr

/-- The upsert payload `_ensure_match_in_state` builds from an audit row. -/
def payloadOfRow (row : LogRow) : Payload :=
  { timestamp_utc := row.timestamp_utc, host_page := row.host_page
    term := row.term, matched_known_file := row.matched_known_file
    saved_copy := row.saved_copy }

/-- `_ensure_match_in_state(domain, image_url)` from `webapp/app.py`, with
the audit log `logs` and the wall clock `wall` passed explicitly.  When the
record is missing it is seeded through `upsert_match` from the first audit
row whose `image_url` matches (an empty row when none does); when present it
is returned unchanged. -/
def ensure_match_in_state (logs : List LogRow) (wall : String) (s : AlertState)
    (domain image_url : String) : AlertState × MatchRecord :=
  let d := lowerStr domain
  let site := (lookupA d s.sites).getD {}
  let s1 : AlertState := ⟨insertA d site s.sites⟩
  match lookupA image_url site.matches_ with
  | some m => (s1, m)
  | none =>
      let row := (logs.find? (fun r => r.image_url == some image_url)).getD {}
      upsert_match s1 d image_url (payloadOfRow row) wall

/-- The `ack_match` route body: `m["status"] = "ack"`. -/
def ack_action (m : MatchRecord) : MatchRecord := { m with status := some "ack" }

/-- The `close_match` route body: `m["status"] = "closed"`. -/
def close_action (m : MatchRecord) : MatchRecord := { m with status := some "closed" }

/-- The `mute_match` route body: `m["muted"] = not bool(m.get("muted"))`. -/
def mute_action (m : MatchRecord) : MatchRecord :=
  { m with muted := some (!(m.muted.getD false)) }

/-- The `note_match` route body: strip the form text; if nothing remains do
not mutate, otherwise append `{"ts": ts, "text": text}` to `notes`. -/
def note_action (ts text : String) (m : MatchRecord) : MatchRecord :=
  if pyStrip text = "" then m
  else { m with notes := some ((m.notes.getD []) ++ [⟨ts, pyStrip text⟩]) }

/-- A whole manual-review route over the state: ensure the record exists,
apply the record mutation, and store the result (Python mutates the aliased
dict in place and then saves the state). -/
def manual_action (act : MatchRecord → MatchRecord) (logs : List LogRow) (wall : String)
    (s : AlertState) (domain image_url : String) : AlertState :=
  let d := lowerStr domain
  let res := ensure_match_in_state logs wall s domain image_url
  let site := (lookupA d res.1.sites).getD {}
  ⟨insertA d ⟨insertA image_url (act res.2) site.matches_⟩ res.1.sites⟩

/-- C4 counterexample: the mute action is not idempotent — applied twice to
a freshly created record it yields `muted = some false`, while applied once
it yields `muted = some true`, so the records differ. -/
theorem mute_not_idempotent :
    mute_action (mute_action (freshRecord "T" {})) ≠ mute_action (freshRecord "T" {}) := by
  decide

/-- C4 (amended): acknowledge and close are idempotent record mutators;
mute toggles the muted flag, so two applications restore the effective value
rather than equal one application; adding a note with blank text is a no-op,
and adding a note with non-blank text appends one note per application. -/
theorem manual_actions_algebra (m : MatchRecord) (ts text : String) :
    ack_action (ack_action m) = ack_action m ∧
    close_action (close_action m) = close_action m ∧
    (mute_action m).muted = some (!(m.muted.getD false)) ∧
    (mute_action (mute_action m)).muted = some (m.muted.getD false) ∧
    (pyStrip text = "" → note_action ts text m = m) ∧
    (pyStrip text ≠ "" →
      (note_action ts text (note_action ts text m)).notes
        = some ((m.notes.getD []) ++ [⟨ts, pyStrip text⟩, ⟨ts, pyStrip text⟩])) := by
  refine ⟨rfl, rfl, rfl, by simp [mute_action], ?_, ?_⟩
  · intro h
    simp [note_action, h]
  · intro h
    simp [note_action, h]

/-- Witness for `manual_actions_algebra` on a concrete acknowledged record
and the note text `"  follow up  "`. -/
theorem manual_actions_algebra_witness :
    ack_action (ack_action (freshRecord "T" {})) = ack_action (freshRecord "T" {}) ∧
    (note_action "T1" "  follow up  " (note_action "T1" "  follow up  " (freshRecord "T" {}))).notes
      = some [⟨"T1", "follow up"⟩, ⟨"T1", "follow up"⟩] := by
  have h := manual_actions_algebra (freshRecord "T" {}) "T1" "  follow up  "
  refine ⟨h.1, ?_⟩
  have h2 := h.2.2.2.2.2 (by decide)
  rw [h2]
  decide

/-- C5 counterexample: a manual action on a pair with no record in the state
and no audit row does not fail with a not-found signal — it fabricates a
fresh record (all provenance empty, wall-clock timestamp) in the state. -/
theorem ensure_fabricates_without_audit_row :
    lookup2 (ensure_match_in_state [] "WALL" ⟨[]⟩ "Example.COM" "http://x/i.jpg").1
        "example.com" "http://x/i.jpg" = some (freshRecord "WALL" {}) := by
  decide

/-- C5 (amended): a manual review action on a pair whose record is missing
seeds the record through `upsert_match` — from the first audit row whose
`image_url` matches when one exists, otherwise from an empty row, so the
timestamp falls back to the wall clock — stores it in the state (the action
never signals not-found), and the seeded record has status `"new"`. -/
theorem ensure_seeds_missing_record (logs : List LogRow) (wall : String) (s : AlertState)
    (domain image_url : String) (row : LogRow)
    (hmiss : lookup2 s (lowerStr domain) image_url = none)
    (hrow : (logs.find? (fun r => r.image_url == some image_url)).getD {} = row) :
    (ensure_match_in_state logs wall s domain image_url).2
        = freshRecord (orDefault row.timestamp_utc wall) (payloadOfRow row) ∧
    lookup2 (ensure_match_in_state logs wall s domain image_url).1
        (lowerStr domain) image_url
      = some (ensure_match_in_state logs wall s domain image_url).2 ∧
    (ensure_match_in_state logs wall s domain image_url).2.status = some "new" := by
  have hurl : lookupA image_url ((lookupA (lowerStr domain) s.sites).getD {} : SiteState).matches_ = none := by
    unfold lookup2 at hmiss
    cases hs : lookupA (lowerStr domain) s.sites with
    | none => simp [hs, SiteState.matches_, lookupA]
    | some site => simp only [hs] at hmiss; simpa [hs] using hmiss
  unfold ensure_match_in_state upsert_match
  simp [lookup2, lookupA_insertA, payloadOfRow, freshRecord, hurl, hrow]

/-- Witness for `ensure_seeds_missing_record`: empty state, one audit row
for the URL; the action seeds a record carrying that row's provenance. -/
theorem ensure_seeds_missing_record_witness :
    (ensure_match_in_state
        [{ timestamp_utc := some "T9", term := some "widget"
           image_url := some "http://x/i.jpg", host_page := some "http://x/p" }]
        "WALL" ⟨[]⟩ "x" "http://x/i.jpg").2.status = some "new" := by
  have h := ensure_seeds_missing_record
    [{ timestamp_utc := some "T9", term := some "widget"
       image_url := some "http://x/i.jpg", host_page := some "http://x/p" }]
    "WALL" ⟨[]⟩ "x" "http://x/i.jpg"
    { timestamp_utc := some "T9", term := some "widget"
      image_url := some "http://x/i.jpg", host_page := some "http://x/p" }
    (by decide) (by decide)
  exact h.2.2

/-! ### Key stability of the alert state (C9) -/

theorem lookup2_insertRecord_preserved (s : AlertState) (d url : String) (v : MatchRecord)
    (sk u : String) (h : (lookup2 s sk u).isSome = true) :
    (lookup2 ⟨insertA d ⟨insertA url v ((lookupA d s.sites).getD {}).matches_⟩ s.sites⟩ sk u).isSome
      = true := by
  unfold lookup2 at h ⊢
  by_cases hd : d = sk <;> by_cases hu : url = u <;>
    cases hs : lookupA d s.sites <;>
      simp_all [lookupA_insertA]

theorem lookup2_insertSite_preserved (s : AlertState) (d sk u : String)
    (h : (lookup2 s sk u).isSome = true) :
    (lookup2 ⟨insertA d ((lookupA d s.sites).getD {}) s.sites⟩ sk u).isSome = true := by
  unfold lookup2 at h ⊢
  simp only [lookupA_insertA]
  by_cases hd : d = sk
  · subst hd
    simp only [if_pos rfl]
    cases hs : lookupA d s.sites with
    | none => simp [hs] at h
    | some site =>
      simp only [hs] at h
      simpa [hs] using h
  · simp only [if_neg hd]
    exact h

theorem lookup2_upsert_preserved (s : AlertState) (base url : String) (payload : Payload)
    (wall sk u : String) (h : (lookup2 s sk u).isSome = true) :
    (lookup2 (upsert_match s base url payload wall).1 sk u).isSome = true := by
  exact lookup2_insertRecord_preserved s base url _ sk u h

theorem lookup2_run_once_merge_preserved (results : List (String × String × CheckResult))
    (s : AlertState) (sk u : String) (h : (lookup2 s sk u).isSome = true) :
    (lookup2 (run_once_merge s results) sk u).isSome = true := by
  induction results generalizing s with
  | nil => simpa [run_once_merge] using h
  | cons r rest ih =>
    show (lookup2 (run_once_merge _ rest) sk u).isSome = true
    exact ih _ (lookup2_insertRecord_preserved s r.1 r.2.1 _ sk u h)

theorem lookup2_ensure_preserved (logs : List LogRow) (wall : String) (s : AlertState)
    (domain image_url sk u : String) (h : (lookup2 s sk u).isSome = true) :
    (lookup2 (ensure_match_in_state logs wall s domain image_url).1 sk u).isSome = true := by
  unfold ensure_match_in_state
  cases hm : lookupA image_url ((lookupA (lowerStr domain) s.sites).getD {} : SiteState).matches_ with
  | some m =>
    simp only [hm]
    exact lookup2_insertSite_preserved s (lowerStr domain) sk u h
  | none =>
    simp only [hm]
    exact lookup2_upsert_preserved _ _ _ _ _ _ _
      (lookup2_insertSite_preserved s (lowerStr domain) sk u h)

/-- C9: no mutating operation on the alert state removes an existing
`(siteKey, imageURL)` record — neither the scan pipeline's upsert, nor the
rechecker's merge of a batch of results, nor a manual review action. -/
theorem state_keys_never_removed (s : AlertState)
    (sk u base url wall domain : String) (payload : Payload)
    (results : List (String × String × CheckResult))
    (act : MatchRecord → MatchRecord) (logs : List LogRow)
    (h : (lookup2 s sk u).isSome = true) :
    (lookup2 (upsert_match s base url payload wall).1 sk u).isSome = true ∧
    (lookup2 (run_once_merge s results) sk u).isSome = true ∧
    (lookup2 (manual_action act logs wall s domain url) sk u).isSome = true := by
  refine ⟨lookup2_upsert_preserved s base url payload wall sk u h,
          lookup2_run_once_merge_preserved results s sk u h, ?_⟩
  unfold manual_action
  exact lookup2_insertRecord_preserved _ (lowerStr domain) url _ sk u
    (lookup2_ensure_preserved logs wall s domain url sk u h)

/-- Witness for `state_keys_never_removed`: a state holding one closed
record keeps it across an upsert to a different URL, a recheck merge of a
`gone` result, and a mute action on another pair. -/
theorem state_keys_never_removed_witness :
    (lookup2 (upsert_match
        ⟨[("ex.com", ⟨[("http://ex.com/i.jpg", freshRecord "T0" {})]⟩)]⟩
        "other.com" "http://other.com/z.png" {} "WALL").1
      "ex.com" "http://ex.com/i.jpg").isSome = true ∧
    (lookup2 (run_once_merge
        ⟨[("ex.com", ⟨[("http://ex.com/i.jpg", freshRecord "T0" {})]⟩)]⟩
        [("ex.com", "http://ex.com/i.jpg", check_one (.success 410 none) "T1")])
      "ex.com" "http://ex.com/i.jpg").isSome = true ∧
    (lookup2 (manual_action mute_action [] "WALL"
        ⟨[("ex.com", ⟨[("http://ex.com/i.jpg", freshRecord "T0" {})]⟩)]⟩
        "other.com" "http://other.com/z.png")
      "ex.com" "http://ex.com/i.jpg").isSome = true := by
  exact state_keys_never_removed
    ⟨[("ex.com", ⟨[("http://ex.com/i.jpg", freshRecord "T0" {})]⟩)]⟩
    "ex.com" "http://ex.com/i.jpg" "other.com" "http://other.com/z.png" "WALL" "other.com"
    {} [("ex.com", "http://ex.com/i.jpg", check_one (.success 410 none) "T1")]
    mute_action [] (by decide)

/-! ### Fingerprint matcher (`utils.py`, matching loop of `scan_and_alert.py`) -/

/-- A fixed-width perceptual hash as a bit string (the contract of the
`imagehash` capability: `hash(image, algorithm) → fixed-length bit string`). -/
abbrev HashVal := List Bool

/-- `hash_distance(h1, h2)`: the Hamming distance
`imagehash.hex_to_hash(h1) - imagehash.hex_to_hash(h2)`. -/
def hash_distance (h1 h2 : HashVal) : Nat :=
  ((h1.zip h2).filter (fun p => p.1 != p.2)).length

/-- A fingerprint set: mapping hash-algorithm name → hash. -/
abbrev Fingerprint := List (String × HashVal)

/-- `any_distance_below(candidate, target, threshold)` from `utils.py`. -/
def any_distance_below (candidate target : Fingerprint) (threshold : Nat) : Bool :=
  candidate.any (fun kv =>
    match lookupA kv.1 target with
    | some tv => decide (hash_distance kv.2 tv ≤ threshold)
    | none => false)

/-- `ssim_match(imgA, imgB, min_score)` from `utils.py`: when loading the
`ssim` capability failed (`ssim is None`, modelled as `cap = none`) the
function returns `False`; otherwise the structural-similarity score is
compared against the minimum. -/
def ssim_match (Img : Type) (cap : Option (Img → Img → ℚ)) (imgA imgB : Img)
    (min_score : ℚ) : Bool :=
  match cap with
  | none => false
  | some score => decide (score imgA imgB ≥ min_score)

/-- The reference-matching loop of `scan_and_alert.py` (`for kpath, khashes
in known_hashes.items(): ...`): first reference whose hash distance is
within threshold and, when `use_ssim` is set, whose reference image opens
and passes `ssim_match` (an exception while opening — `openRef` returning
`none` — rejects the candidate, `continue`). -/
def find_match (Img : Type) (cap : Option (Img → Img → ℚ)) (use_ssim : Bool)
    (openRef : String → Option Img) (img : Img) (cand_hashes : Fingerprint)
    (known_hashes : List (String × Fingerprint)) (threshold : Nat) : Option String :=
  (known_hashes.find? (fun kv =>
    any_distance_below cand_hashes kv.2 threshold &&
    (if use_ssim then
       match openRef kv.1 with
       | some base_img => ssim_match Img cap base_img img ((82 : ℚ)/100)
       | none => false
     else true))).map Prod.fst

/-- C3: when secondary (SSIM) verification is enabled but the capability is
unavailable, the matcher returns no reference — even when some reference's
hash distance is within the threshold (fail-closed). -/
theorem find_match_fail_closed (Img : Type) (openRef : String → Option Img) (img : Img)
    (cand_hashes : Fingerprint) (known_hashes : List (String × Fingerprint)) (threshold : Nat)
    (_hwithin : ∃ kv ∈ known_hashes, any_distance_below cand_hashes kv.2 threshold = true) :
    find_match Img none true openRef img cand_hashes known_hashes threshold = none := by
  unfold find_match
  have hnone : known_hashes.find? (fun kv =>
      any_distance_below cand_hashes kv.2 threshold &&
      (if true then
         match openRef kv.1 with
         | some base_img => ssim_match Img none base_img img ((82 : ℚ)/100)
         | none => false
       else true)) = none := by
    rw [List.find?_eq_none]
    intro kv _
    cases h : openRef kv.1 <;> simp [h, ssim_match]
  rw [hnone]
  rfl

/-- Witness for `find_match_fail_closed`: one reference whose `phash` is at
distance 0 from the candidate (within threshold 7), yet with SSIM enabled
and the capability unavailable no reference is returned. -/
theorem find_match_fail_closed_witness :
    find_match Unit none true (fun _ => some ()) ()
      [("phash", [true, false, true, true])]
      [("ref/known.jpg", [("phash", [true, false, true, true])])] 7 = none := by
  exact find_match_fail_closed Unit (fun _ => some ()) ()
    [("phash", [true, false, true, true])]
    [("ref/known.jpg", [("phash", [true, false, true, true])])] 7
    ⟨("ref/known.jpg", [("phash", [true, false, true, true])]), by decide, by decide⟩

/-! ### Scan pipeline notification batching (`scan_and_alert.py`) -/

/-- The eligibility test after upsert:
`(rec.get("status") == "new") and (not rec.get("muted", False))`. -/
def notify_eligible (rec : MatchRecord) : Bool :=
  (rec.status == some "new") && !(rec.muted.getD false)

/-- The batching step `grouped[site_key].append(row)` guarded by the
eligibility test; `grouped` is a `defaultdict(list)`. -/
def scan_group_step {ρ : Type} (grouped : List (String × List ρ)) (site_key : String)
    (row : ρ) (rec : MatchRecord) : List (String × List ρ) :=
  if notify_eligible rec then
    insertA site_key ((lookupA site_key grouped).getD [] ++ [row]) grouped
  else grouped

/-- C7: a confirmed match is appended to its site's notification batch iff
the post-upsert record has status exactly `"new"` and is not muted; a record
whose status is `"ack"` or `"closed"`, or which is muted, leaves every batch
untouched. -/
theorem scan_batch_iff_new_unmuted {ρ : Type} (grouped : List (String × List ρ))
    (site_key : String) (row : ρ) (rec : MatchRecord) :
    (lookupA site_key (scan_group_step grouped site_key row rec)
        = some ((lookupA site_key grouped).getD [] ++ [row])
      ↔ (rec.status = some "new" ∧ rec.muted.getD false = false)) ∧
    ((rec.status = some "ack" ∨ rec.status = some "closed" ∨ rec.muted = some true)
      → scan_group_step grouped site_key row rec = grouped) := by
  have helig : notify_eligible rec = true ↔ (rec.status = some "new" ∧ rec.muted.getD false = false) := by
    simp [notify_eligible]
  constructor
  · constructor
    · intro hadd
      by_cases he : notify_eligible rec = true
      · exact helig.mp he
      · exfalso
        simp only [scan_group_step, if_neg he] at hadd
        cases hl : lookupA site_key grouped with
        | none => rw [hl] at hadd; cases hadd
        | some l =>
          rw [hl] at hadd
          have := congrArg (fun o => (Option.getD o []).length) hadd
          simp [hl] at this
    · intro hnew
      simp only [scan_group_step, if_pos (helig.mpr hnew)]
      rw [lookupA_insertA, if_pos rfl]
  · intro hsup
    have he : notify_eligible rec = false := by
      rcases hsup with h | h | h <;> simp [notify_eligible, h]
    simp [scan_group_step, he]

/-- Witness for `scan_batch_iff_new_unmuted`: an acknowledged record adds
nothing to an empty batch map. -/
theorem scan_batch_iff_new_unmuted_witness :
    scan_group_step ([] : List (String × List Nat)) "ex.com" 0
      { status := some "ack" } = [] := by
  exact (scan_batch_iff_new_unmuted [] "ex.com" 0 { status := some "ack" }).2
    (Or.inl rfl)

/-! ### Alert state loading (`state.py`) -/

/-- A JSON value, the result type of `json.loads`. -/
inductive Jval where
  | null
  | bool (b : Bool)
  | num (n : Int)
  | str (s : String)
  | arr (elems : List Jval)
  | obj (fields : List (String × Jval))

/-- The empty alert state `{"sites": {}}`. -/
def emptyState : Jval := .obj [("sites", .obj [])]

/-- The persisted document as observed by `load_state`: either the file is
missing (`FileNotFoundError`) or it holds decoded text. -/
inductive Doc where
  | missing
  | content (data : String)

/-- `load_state(path)` from `state.py`, with the JSON parser passed as a
capability (`parse` returning `none` models `json.JSONDecodeError`).  The
file text is stripped; a missing file, blank content, and unparseable
content all fall back to `{"sites": {}}` instead of raising. -/
def load_state (parse : String → Option Jval) (doc : Doc) : Jval :=
  match doc with
  | .missing => emptyState
  | .content data =>
      if pyStrip data = "" then emptyState
      else match parse (pyStrip data) with
           | none => emptyState
           | some j => j

/-- C8: `load_state` is total over missing, blank, and malformed documents,
returning the empty alert state in each of those cases rather than failing
its caller. -/
theorem load_state_fallback (parse : String → Option Jval) (data : String) :
    load_state parse .missing = emptyState ∧
    (pyStrip data = "" → load_state parse (.content data) = emptyState) ∧
    (parse (pyStrip data) = none → load_state parse (.content data) = emptyState) := by
  refine ⟨rfl, ?_, ?_⟩
  · intro h
    simp [load_state, h]
  · intro h
    by_cases hb : pyStrip data = ""
    · simp [load_state, hb]
    · simp [load_state, hb, h]

/-- Witness for `load_state_fallback`: a parser that rejects everything and
a malformed document still yield the empty state. -/
theorem load_state_fallback_witness :
    load_state (fun _ => none) (.content "  \x7bbroken") = emptyState := by
  exact (load_state_fallback (fun _ => none) "  \x7bbroken").2.2 rfl

/-! ### Notification dispatcher chunking (`discord_notify` in `utils.py`) -/

/-- The slicing loop `[text[i:i+MAX_LEN] for i in range(0, len(text),
MAX_LEN)]`, written with explicit fuel; `range(0, n, step)` performs at most
`n` iterations, so fuel `n` is never exhausted. -/
def chunksOfFuel (maxLen : Nat) : Nat → List Char → List (List Char)
  | _, [] => []
  | 0, _ :: _ => []
  | fuel + 1, c :: cs => (c :: cs).take maxLen :: chunksOfFuel maxLen fuel ((c :: cs).drop maxLen)

/-- All 2000-character slices of a character list. -/
def chunksOf (maxLen : Nat) (cs : List Char) : List (List Char) :=
  chunksOfFuel maxLen cs.length cs

/-- The chunk list built by `discord_notify`:
`[text[i:i+MAX_LEN] for i in range(0, len(text), MAX_LEN)] or ["(empty)"]`. -/
def discord_chunks (text : String) : List String :=
  match (chunksOf 2000 text.toList).map (fun l => (⟨l⟩ : String)) with
  | [] => ["(empty)"]
  | c :: cs => c :: cs

theorem chunksOfFuel_length_le (maxLen fuel : Nat) (cs : List Char) :
    ∀ l ∈ chunksOfFuel maxLen fuel cs, l.length ≤ maxLen := by
  induction fuel generalizing cs with
  | zero => cases cs <;> simp [chunksOfFuel]
  | succ f ih =>
    cases cs with
    | nil => simp [chunksOfFuel]
    | cons c rest =>
      intro l hl
      rcases List.mem_cons.mp hl with rfl | hl2
      · exact List.length_take_le maxLen (c :: rest)
      · exact ih _ l hl2

theorem chunksOfFuel_flatten (maxLen fuel : Nat) (cs : List Char)
    (hml : 1 ≤ maxLen) (hfuel : cs.length ≤ fuel) :
    (chunksOfFuel maxLen fuel cs).flatten = cs := by
  induction fuel generalizing cs with
  | zero =>
    cases cs with
    | nil => simp [chunksOfFuel]
    | cons c rest => simp at hfuel
  | succ f ih =>
    cases cs with
    | nil => simp [chunksOfFuel]
    | cons c rest =>
      simp only [chunksOfFuel, List.flatten_cons]
      have hd : (List.drop maxLen (c :: rest)).length ≤ f := by
        simp only [List.length_drop, List.length_cons]
        simp only [List.length_cons] at hfuel
        omega
      rw [ih _ hd]
      exact List.take_append_drop maxLen (c :: rest)

theorem join_mk_foldl (l : List (List Char)) (acc : List Char) :
    (l.map (fun x => (⟨x⟩ : String))).foldl (· ++ ·) ⟨acc⟩ = ⟨acc ++ l.flatten⟩ := by
  induction l generalizing acc with
  | nil => simp
  | cons a t ih =>
    simp only [List.map_cons, List.foldl_cons]
    have hstep : (⟨acc⟩ : String) ++ (⟨a⟩ : String) = (⟨acc ++ a⟩ : String) := rfl
    rw [hstep, ih]
    simp

/-- C10: every chunk produced by the dispatcher's splitting has at most 2000
characters; for non-empty input the chunks concatenate back to the original
text exactly (no character duplicated or lost); the empty message produces
exactly the one placeholder chunk. -/
theorem discord_chunks_spec (text : String) :
    (∀ c ∈ discord_chunks text, c.length ≤ 2000) ∧
    (text ≠ "" → String.join (discord_chunks text) = text) ∧
    discord_chunks "" = ["(empty)"] := by
  refine ⟨?_, ?_, rfl⟩
  · intro c hc
    unfold discord_chunks at hc
    cases hch : (chunksOf 2000 text.toList).map (fun l => (⟨l⟩ : String)) with
    | nil =>
      rw [hch] at hc
      simp only [List.mem_singleton] at hc
      rw [hc]
      decide
    | cons x xs =>
      rw [hch] at hc
      simp only at hc
      rw [← hch] at hc
      rcases List.mem_map.mp hc with ⟨l, hl, rfl⟩
      exact chunksOfFuel_length_le 2000 _ _ l hl
  · intro hne
    have hlist : text.toList ≠ [] := by
      intro h0
      apply hne
      have hx : text = ⟨text.toList⟩ := rfl
      rw [hx, h0]
    unfold discord_chunks
    cases hch : (chunksOf 2000 text.toList).map (fun l => (⟨l⟩ : String)) with
    | nil =>
      exfalso
      have hnil := List.map_eq_nil_iff.mp hch
      unfold chunksOf at hnil
      cases hcs : text.toList with
      | nil => exact hlist hcs
      | cons c rest => rw [hcs] at hnil; simp [chunksOfFuel] at hnil
    | cons x xs =>
      simp only
      rw [← hch]
      have hjoin : String.join ((chunksOf 2000 text.toList).map (fun l => (⟨l⟩ : String)))
          = (⟨(chunksOf 2000 text.toList).flatten⟩ : String) := by
        have hf := join_mk_foldl (chunksOf 2000 text.toList) []
        simpa [String.join] using hf
      rw [hjoin]
      unfold chunksOf
      rw [chunksOfFuel_flatten 2000 _ _ (by omega) (le_refl _)]
      rfl

/-- Witness for `discord_chunks_spec`: a two-character message is returned
as a single chunk equal to itself. -/
theorem discord_chunks_spec_witness :
    String.join (discord_chunks "hi") = "hi" := by
  exact (discord_chunks_spec "hi").2.1 (by decide)

end DmcaMonitor
